import Mathlib

set_option autoImplicit false

namespace Wunder

/-- JSON values as produced by `response.json()` / consumed by `json.dumps`.
An `obj` represents a parsed Python dict, whose keys are unique; lookup
takes the first binding. -/
inductive Json where
  | null
  | bool (b : Bool)
  | num (n : Int)
  | str (s : String)
  | arr (xs : List Json)
  | obj (kvs : List (String × Json))
mutual

def Json.beq : Json → Json → Bool
  | .null, .null => true
  | .bool a, .bool b => a == b
  | .num a, .num b => a == b
  | .str a, .str b => a == b
  | .arr xs, .arr ys => Json.beqList xs ys
  | .obj xs, .obj ys => Json.beqObj xs ys
  | _, _ => false

def Json.beqList : List Json → List Json → Bool
  | [], [] => true
  | x :: xs, y :: ys => Json.beq x y && Json.beqList xs ys
  | _, _ => false

def Json.beqObj : List (String × Json) → List (String × Json) → Bool
  | [], [] => true
  | (k, v) :: xs, (l, w) :: ys => k == l && Json.beq v w && Json.beqObj xs ys
  | _, _ => false

end

mutual

theorem Json.beq_refl : ∀ a : Json, Json.beq a a = true
  | .null => rfl
  | .bool a => by simp [Json.beq]
  | .num a => by simp [Json.beq]
  | .str a => by simp [Json.beq]
  | .arr xs => by rw [Json.beq]; exact Json.beqList_refl xs
  | .obj xs => by rw [Json.beq]; exact Json.beqObj_refl xs

theorem Json.beqList_refl : ∀ xs : List Json, Json.beqList xs xs = true
  | [] => rfl
  | x :: xs => by
      rw [Json.beqList, Bool.and_eq_true]
      exact ⟨Json.beq_refl x, Json.beqList_refl xs⟩

theorem Json.beqObj_refl : ∀ xs : List (String × Json), Json.beqObj xs xs = true
  | [] => rfl
  | (k, v) :: xs => by
      rw [Json.beqObj, Bool.and_eq_true, Bool.and_eq_true]
      exact ⟨⟨by simp, Json.beq_refl v⟩, Json.beqObj_refl xs⟩

end

mutual

theorem Json.eq_of_beq : ∀ {a b : Json}, Json.beq a b = true → a = b
  | .null, b, h => by cases b <;> simp_all [Json.beq]
  | .bool a, b, h => by cases b <;> simp_all [Json.beq]
  | .num a, b, h => by cases b <;> simp_all [Json.beq]
  | .str a, b, h => by cases b <;> simp_all [Json.beq]
  | .arr xs, .arr ys, h => by
      rw [Json.beq] at h
      exact congrArg Json.arr (Json.eqList_of_beqList h)
  | .arr xs, .null, h => by simp [Json.beq] at h
  | .arr xs, .bool _, h => by simp [Json.beq] at h
  | .arr xs, .num _, h => by simp [Json.beq] at h
  | .arr xs, .str _, h => by simp [Json.beq] at h
  | .arr xs, .obj _, h => by simp [Json.beq] at h
  | .obj xs, .obj ys, h => by
      rw [Json.beq] at h
      exact congrArg Json.obj (Json.eqObj_of_beqObj h)
  | .obj xs, .null, h => by simp [Json.beq] at h
  | .obj xs, .bool _, h => by simp [Json.beq] at h
  | .obj xs, .num _, h => by simp [Json.beq] at h
  | .obj xs, .str _, h => by simp [Json.beq] at h
  | .obj xs, .arr _, h => by simp [Json.beq] at h

theorem Json.eqList_of_beqList : ∀ {xs ys : List Json}, Json.beqList xs ys = true → xs = ys
  | [], [], _ => rfl
  | [], _ :: _, h => by simp [Json.beqList] at h
  | _ :: _, [], h => by simp [Json.beqList] at h
  | x :: xs, y :: ys, h => by
      rw [Json.beqList, Bool.and_eq_true] at h
      exact congrArg₂ List.cons (Json.eq_of_beq h.1) (Json.eqList_of_beqList h.2)

theorem Json.eqObj_of_beqObj :
    ∀ {xs ys : List (String × Json)}, Json.beqObj xs ys = true → xs = ys
  | [], [], _ => rfl
  | [], _ :: _, h => by simp [Json.beqObj] at h
  | _ :: _, [], h => by simp [Json.beqObj] at h
  | (k, v) :: xs, (l, w) :: ys, h => by
      rw [Json.beqObj, Bool.and_eq_true, Bool.and_eq_true] at h
      have hk : k = l := by simpa using h.1.1
      have hv : v = w := Json.eq_of_beq h.1.2
      have ht : xs = ys := Json.eqObj_of_beqObj h.2
      rw [hk, hv, ht]

end

instance : BEq Json := ⟨Json.beq⟩

instance : LawfulBEq Json where
  eq_of_beq := Json.eq_of_beq
  rfl := Json.beq_refl _

instance : DecidableEq Json := fun a b =>
  if h : Json.beq a b = true then .isTrue (Json.eq_of_beq h)
  else .isFalse (fun hc => h (hc ▸ Json.beq_refl a))

/-- Python dict lookup `d[k]` restricted to string keys (the shape of every
literal dict in the source); `none` when the key is absent. -/
def objLookup (kvs : List (String × Json)) (k : String) : Option Json :=
  (kvs.find? (fun kv => kv.1 == k)).map (fun kv => kv.2)

/-- Python dict assignment `d[k] = v`: updates the value at an existing
key in place, otherwise appends the new binding (insertion order
preserved; every dict reaching this has unique keys). -/
def pyDictAssign (d : List (String × Json)) (k : String) (v : Json) :
    List (String × Json) :=
  match d with
  | [] => [(k, v)]
  | kv :: rest => if kv.1 == k then (k, v) :: rest else kv :: pyDictAssign rest k v

/-- Python dict assignment for a dict whose keys are arbitrary (hashable)
values, as built by `list_ids` where keys are the titles found in server
records. -/
def jDictAssign (d : List (Json × Json)) (k v : Json) : List (Json × Json) :=
  match d with
  | [] => [(k, v)]
  | kv :: rest => if kv.1 == k then (k, v) :: rest else kv :: jDictAssign rest k v

def jDictLookup (d : List (Json × Json)) (k : Json) : Option Json :=
  (d.find? (fun kv => kv.1 == k)).map (fun kv => kv.2)

/-- The errors an operation can surface, following the spec's taxonomy.
`staleRevision` and `remoteError` are the two `ValueError`s raised by
`_check_response`; `invalidArgument` covers the deliberate
`ValueError`/`TypeError` raises on bad arguments; `keyError` is Python's
`KeyError` (a failed subscript, including the deliberate raise in
`get_note_id`), which the spec calls `NotFound`; `pyError` models the
remaining Python-level type failures on malformed data. -/
inductive WError where
  | staleRevision
  | remoteError (msg : Json)
  | invalidArgument (msg : String)
  | keyError (msg : String)
  | pyError (msg : String)
  deriving DecidableEq

instance {α : Type} [DecidableEq α] : DecidableEq (Except WError α) := fun a b =>
  match a, b with
  | .ok x, .ok y =>
      if h : x = y then .isTrue (h ▸ rfl) else .isFalse (fun hc => by cases hc; exact h rfl)
  | .error e, .error f =>
      if h : e = f then .isTrue (h ▸ rfl) else .isFalse (fun hc => by cases hc; exact h rfl)
  | .ok _, .error _ => .isFalse (fun hc => by cases hc)
  | .error _, .ok _ => .isFalse (fun hc => by cases hc)

/-- Python `len(x)`: defined on strings, lists and dicts; `TypeError`
otherwise. -/
def pyLen : Json → Except WError Nat
  | .str s => .ok s.length
  | .arr xs => .ok xs.length
  | .obj kvs => .ok kvs.length
  | _ => .error (.pyError "TypeError: object has no len")

/-- Leading-match test for character lists: the first list read off the
front of the second. -/
def charsLead : List Char → List Char → Bool
  | [], _ => true
  | _ :: _, [] => false
  | a :: as, b :: bs => a == b && charsLead as bs

/-- Contiguous-substring test for character lists (true on an empty
needle, as in Python). -/
def charsSub (needle : List Char) : List Char → Bool
  | [] => charsLead needle []
  | t :: ts => charsLead needle (t :: ts) || charsSub needle ts

/-- Python `needle in container`: key membership for dicts, element
membership for lists, substring test for strings (where the needle must
itself be a string), `TypeError` otherwise. -/
def pyIn (needle : Json) : Json → Except WError Bool
  | .obj kvs => .ok (kvs.any (fun kv => needle == .str kv.1))
  | .arr xs => .ok (xs.any (fun x => x == needle))
  | .str t =>
      match needle with
      | .str s => .ok (charsSub s.data t.data)
      | _ => .error (.pyError "TypeError: in <string> requires string")
  | _ => .error (.pyError "TypeError: argument is not iterable")

/-- Python subscript `x[k]` with a string key: dict lookup (`KeyError` when
absent), `TypeError` on any non-dict value. -/
def pySubscr (x : Json) (k : String) : Except WError Json :=
  match x with
  | .obj kvs =>
      match objLookup kvs k with
      | some v => .ok v
      | none => .error (.keyError k)
  | _ => .error (.pyError "TypeError: value is not subscriptable")

/-- Python `str(x)` for the value shapes that reach it in the source
(revision stamps: numbers or strings). The container cases, which no
operation modelled here reaches, are rendered as placeholders. -/
def pyStr : Json → String
  | .null => "None"
  | .bool true => "True"
  | .bool false => "False"
  | .num n => toString n
  | .str s => s
  | .arr _ => "[...]"
  | .obj _ => "{...}"

inductive Verb where
  | get
  | post
  | patch
  | delete
  deriving DecidableEq, Repr

/-- One outgoing HTTP request: verb, url, serialized JSON body (`data`) and
query parameters, as assembled by `_get`/`_post`/`_patch`/`_delete`.
The two constant identity headers carry no claim-relevant information and
are omitted. -/
structure Request where
  verb : Verb
  url : String
  payload : Option Json
  params : Option Json
  deriving DecidableEq

/-- A completed transport response: status code and parsed JSON body. -/
structure Response where
  status : Nat
  body : Json
  deriving DecidableEq

/-- The effect context of every client operation: a server transition
function (state in, request in, response and new state out), threading the
server state and recording the requests issued, and failing with a
`WError`. -/
def M (σ : Type) (α : Type) : Type :=
  (σ → Request → Response × σ) → σ → Except WError α × List Request × σ

instance {σ : Type} : Monad (M σ) where
  pure a := fun _ s => (.ok a, [], s)
  bind m f := fun step s =>
    match m step s with
    | (.ok a, l1, s1) =>
        match f a step s1 with
        | (r, l2, s2) => (r, l1 ++ l2, s2)
    | (.error e, l1, s1) => (.error e, l1, s1)

/-- Issue one network request and return the transport response. -/
def issue {σ : Type} (req : Request) : M σ Response :=
  fun step s =>
    match step s req with
    | (resp, s1) => (.ok resp, [req], s1)

/-- Lift a pure fallible computation (a raise site) into `M`. -/
def liftE {σ : Type} {α : Type} (e : Except WError α) : M σ α :=
  fun _ s => (e, [], s)

/-- A stateless server given as a pure response function, used to model an
arbitrary remote peer. -/
def pureStep (srv : Request → Response) : Unit → Request → Response × Unit :=
  fun _ req => (srv req, ())

/-- The keyword-argument dict a caller passes to an update operation. -/
abbrev Kwargs := List (String × Json)

/-- `_check_response`: a list body is unconditionally success; a dict body
with an `error` entry fails — `staleRevision` when Python's
`'revision_conflict' in jres['error']` test holds, otherwise a
`remoteError` carrying `jres['error']['message']`; a scalar body has no
`.keys()` and crashes. -/
def checkResponse (resp : Response) : Except WError Unit :=
  match resp.body with
  | .arr _ => .ok ()
  | .obj kvs =>
      match objLookup kvs "error" with
      | none => .ok ()
      | some err =>
          match pyIn (.str "revision_conflict") err with
          | .error e => .error e
          | .ok true => .error .staleRevision
          | .ok false =>
              match pySubscr err "message" with
              | .ok m => .error (.remoteError m)
              | .error e => .error e
  | _ => .error (.pyError "AttributeError: value has no keys")

/-- `_check_title`: raise when `len(title) > 255`. -/
def check_title (title : Json) : Except WError Unit :=
  match pyLen title with
  | .ok n =>
      if n > 255 then .error (.invalidArgument "Title is too long (255 char max).")
      else .ok ()
  | .error e => .error e

/-- `_get`: issue a GET, validate the response, return the parsed body. -/
def wget {σ : Type} (url : String) (params : Option Json) : M σ Json := do
  let resp ← issue ⟨.get, url, none, params⟩
  liftE (checkResponse resp)
  pure resp.body

/-- `_post`: issue a POST with a JSON payload, validate, return the body. -/
def wpost {σ : Type} (url : String) (payload : Option Json) : M σ Json := do
  let resp ← issue ⟨.post, url, payload, none⟩
  liftE (checkResponse resp)
  pure resp.body

/-- `_patch`: issue a PATCH with a JSON payload, validate, return the body. -/
def wpatch {σ : Type} (url : String) (payload : Json) : M σ Json := do
  let resp ← issue ⟨.patch, url, some payload, none⟩
  liftE (checkResponse resp)
  pure resp.body

/-- `_delete`: issue a DELETE, validate the response body, then report
success as `status_code == 204`. -/
def wdelete {σ : Type} (url : String) (params : Option Json) : M σ Bool := do
  let resp ← issue ⟨.delete, url, none, params⟩
  liftE (checkResponse resp)
  pure (resp.status == 204)

def get_lists {σ : Type} : M σ Json :=
  wget "https://a.wunderlist.com/api/v1/lists" none

def get_list {σ : Type} (list_id : Int) : M σ Json :=
  wget ("https://a.wunderlist.com/api/v1/lists/" ++ toString list_id) none

def list_revision {σ : Type} (list_id : Int) : M σ Json := do
  let j ← get_list list_id
  liftE (pySubscr j "revision")

def update_list {σ : Type} (list_id : Int) (kwargs : Kwargs) : M σ Json := do
  match objLookup kwargs "title" with
  | some t => liftE (check_title t)
  | none => pure ()
  let kwargs1 ←
    match objLookup kwargs "revision" with
    | some _ => pure kwargs
    | none => do
        let r ← list_revision list_id
        pure (pyDictAssign kwargs "revision" r)
  wpatch ("http://a.wunderlist.com/api/v1/lists/" ++ toString list_id) (.obj kwargs1)

def make_list {σ : Type} (title : String) : M σ Json := do
  liftE (check_title (.str title))
  wpost "http://a.wunderlist.com/api/v1/lists" (some (.obj [("title", .str title)]))

def make_list_public {σ : Type} (list_id : Int) (revision : Option Json) : M σ Bool := do
  let payload :=
    match revision with
    | some r => pyDictAssign [("public", .bool true)] "revision" r
    | none => [("public", .bool true)]
  let is_public ← wpatch ("http://a.wunderlist.com/api/v1/lists/" ++ toString list_id)
    (.obj payload)
  let v ← liftE (pySubscr is_public "public")
  pure (v == Json.str "true")

def delete_list {σ : Type} (list_id : Int) (revision : Option Json) : M σ Bool := do
  let rev ←
    match revision with
    | none => list_revision list_id
    | some r => pure r
  wdelete ("http://a.wunderlist.com/api/v1/lists/" ++ toString list_id)
    (some (.obj [("revision", rev)]))

def get_folders {σ : Type} : M σ Json :=
  wget "http://a.wunderlist.com/api/v1/folders" none

def get_folder {σ : Type} (folder_id : Int) : M σ Json :=
  wget ("http://a.wunderlist.com/api/v1/folders/" ++ toString folder_id) none

def make_folder {σ : Type} (title : String) (list_ids : Json) : M σ Json := do
  liftE (check_title (.str title))
  wpost "http://a.wunderlist.com/api/v1/folders"
    (some (.obj [("title", .str title), ("list_ids", list_ids)]))

def folder_revision {σ : Type} (folder_id : Int) : M σ Json := do
  let j ← get_folder folder_id
  liftE (pySubscr j "revision")

def update_folder {σ : Type} (folder_id : Int) (kwargs : Kwargs) : M σ Json := do
  match objLookup kwargs "title" with
  | some t => liftE (check_title t)
  | none => pure ()
  let kwargs1 ←
    match objLookup kwargs "revision" with
    | some _ => pure kwargs
    | none => do
        let r ← folder_revision folder_id
        pure (pyDictAssign kwargs "revision" r)
  wpatch ("http://a.wunderlist.com/api/v1/folders/" ++ toString folder_id) (.obj kwargs1)

def delete_folder {σ : Type} (folder_id : Int) (revision : Option Json) : M σ Bool := do
  let rev ←
    match revision with
    | none => folder_revision folder_id
    | some r => pure r
  wdelete ("http://a.wunderlist.com/api/v1/folders/" ++ toString folder_id)
    (some (.obj [("revision", .str (pyStr rev))]))

def get_task {σ : Type} (task_id : Int) : M σ Json :=
  wget ("http://a.wunderlist.com/api/v1/tasks/" ++ toString task_id) none

def make_task {σ : Type} (list_id : Int) (title : String) (kwargs : Kwargs) : M σ Json := do
  liftE (check_title (.str title))
  let payload := kwargs.foldl (fun d kv => pyDictAssign d kv.1 kv.2)
    [("list_id", .num list_id), ("title", .str title)]
  wpost "https://a.wunderlist.com/api/v1/tasks" (some (.obj payload))

def update_task {σ : Type} (task_id : Int) (kwargs : Kwargs) : M σ Json := do
  match objLookup kwargs "title" with
  | some t => liftE (check_title t)
  | none => pure ()
  let kwargs1 ←
    match objLookup kwargs "revision" with
    | some _ => pure kwargs
    | none => do
        let j ← get_task task_id
        let r ← liftE (pySubscr j "revision")
        pure (pyDictAssign kwargs "revision" r)
  wpatch ("http://a.wunderlist.com/api/v1/tasks/" ++ toString task_id) (.obj kwargs1)

def delete_task {σ : Type} (task_id : Int) (revision : Option Json) : M σ Bool := do
  let rev ←
    match revision with
    | none => do
        let j ← get_task task_id
        liftE (pySubscr j "revision")
    | some r => pure r
  wdelete ("http://a.wunderlist.com/api/v1/tasks/" ++ toString task_id)
    (some (.obj [("revision", .str (pyStr rev))]))

def get_subtasks {σ : Type} (list_id task_id : Option Json) (completed : Bool) :
    M σ Json := do
  let params ←
    match list_id, task_id with
    | none, none =>
        liftE (.error (.invalidArgument
          "get_subtasks requires exactly one of list_id or task_id."))
    | some l, none => pure [("list_id", l)]
    | none, some t => pure [("task_id", t)]
    | some _, some _ =>
        liftE (.error (.invalidArgument
          "get_subtasks requires exactly one of list_id or task_id."))
  let params1 := if completed then pyDictAssign params "completed" (.bool true) else params
  wget "http://a.wunderlist.com/api/v1/subtasks" (some (.obj params1))

def get_subtask {σ : Type} (subtask_id : Int) : M σ Json :=
  wget ("https://a.wunderlist.com/api/v1/subtasks/" ++ toString subtask_id) none

def make_subtask {σ : Type} (task_id : Int) (title : String) (completed : Bool) :
    M σ Json := do
  liftE (check_title (.str title))
  let payload := [("task_id", Json.num task_id), ("title", Json.str title)]
  let payload1 := if completed then pyDictAssign payload "completed" (.bool true) else payload
  wpost "https://a.wunderlist.com/api/v1/subtasks" (some (.obj payload1))

def update_subtask {σ : Type} (subtask_id : Int) (kwargs : Kwargs) : M σ Json := do
  match objLookup kwargs "title" with
  | some t => liftE (check_title t)
  | none => pure ()
  let kwargs1 ←
    match objLookup kwargs "revision" with
    | some _ => pure kwargs
    | none => do
        let j ← get_subtask subtask_id
        let r ← liftE (pySubscr j "revision")
        pure (pyDictAssign kwargs "revision" r)
  wpatch ("http://a.wunderlist.com/api/v1/subtasks/" ++ toString subtask_id) (.obj kwargs1)

def delete_subtask {σ : Type} (subtask_id : Int) (revision : Option Json) : M σ Bool := do
  let rev ←
    match revision with
    | none => do
        let j ← get_subtask subtask_id
        liftE (pySubscr j "revision")
    | some r => pure r
  wdelete ("http://a.wunderlist.com/api/v1/subtasks/" ++ toString subtask_id)
    (some (.obj [("revision", rev)]))

def get_notes {σ : Type} (list_id task_id : Option Json) : M σ Json := do
  let params ←
    match list_id, task_id with
    | none, none =>
        liftE (.error (.invalidArgument
          "get_notes requires exactly one of list_id or task_id."))
    | some l, none => pure [("list_id", l)]
    | none, some t => pure [("task_id", t)]
    | some _, some _ =>
        liftE (.error (.invalidArgument
          "get_notes requires exactly one of list_id or task_id."))
  wget "http://a.wunderlist.com/api/v1/notes" (some (.obj params))

def get_note {σ : Type} (note_id : Int) : M σ Json :=
  wget ("https://a.wunderlist.com/api/v1/notes/" ++ toString note_id) none

def update_note {σ : Type} (note_id : Int) (content : String) (revision : Option Json) :
    M σ Json := do
  let rev ←
    match revision with
    | none => do
        let j ← get_note note_id
        liftE (pySubscr j "revision")
    | some r => pure r
  wpatch ("http://a.wunderlist.com/api/v1/notes/" ++ toString note_id)
    (.obj [("revision", rev), ("content", .str content)])

def delete_note {σ : Type} (note_id : Int) (revision : Option Json) : M σ Bool := do
  let rev ←
    match revision with
    | none => do
        let j ← get_note note_id
        liftE (pySubscr j "revision")
    | some r => pure r
  wdelete ("http://a.wunderlist.com/api/v1/notes/" ++ toString note_id)
    (some (.obj [("revision", rev)]))

/-- The dict-building loop of `list_ids`: for each record, Python evaluates
`zlist['id']` (the assigned value) before the key `zlist['title']`. -/
def buildListIds : List Json → List (Json × Json) → Except WError (List (Json × Json))
  | [], acc => .ok acc
  | r :: rs, acc => do
      let i ← pySubscr r "id"
      let t ← pySubscr r "title"
      buildListIds rs (jDictAssign acc t i)

/-- `list_ids`: with no title, the full title-to-id dict (`inl`); with a
title, that title's id (`inr`) or a `KeyError`. Iterating a dict body
yields its keys as strings, as in Python. -/
def list_ids {σ : Type} (title : Option String) : M σ (List (Json × Json) ⊕ Json) := do
  let lists ← get_lists
  let d ←
    match lists with
    | .arr rs => liftE (buildListIds rs [])
    | .obj kvs => liftE (buildListIds (kvs.map (fun kv => Json.str kv.1)) [])
    | _ => liftE (.error (.pyError "TypeError: value is not iterable"))
  match title with
  | some t =>
      match jDictLookup d (.str t) with
      | some i => pure (.inr i)
      | none => liftE (.error (.keyError t))
  | none => pure (.inl d)

def add_to_folder {σ : Type} (list_id folder_id : Int) : M σ Json := do
  let folder ← get_folder folder_id
  let lids ← liftE (pySubscr folder "list_ids")
  let present ← liftE (pyIn (.num list_id) lids)
  let lids1 ←
    if present then pure lids
    else
      match lids with
      | .arr xs => pure (Json.arr (xs ++ [.num list_id]))
      | _ => liftE (.error (.pyError "AttributeError: value has no append"))
  update_folder folder_id [("list_ids", lids1)]

/-- The scan loop of `get_note_id` over the notes of the owning list:
first note whose `task_id` entry equals the requested task wins; an
exhausted loop raises the deliberate `KeyError`. -/
def scanNotes (task_id : Int) : List Json → Except WError Json
  | [] => .error (.keyError "No note_id found for the given task_id.")
  | n :: ns => do
      let t ← pySubscr n "task_id"
      if t == Json.num task_id then pySubscr n "id"
      else scanNotes task_id ns

def get_note_id {σ : Type} (task_id : Int) : M σ Json := do
  let task ← get_task task_id
  let lid ← liftE (pySubscr task "list_id")
  let notes ← get_notes (some lid) none
  match notes with
  | .arr ns => liftE (scanNotes task_id ns)
  | .obj kvs => liftE (scanNotes task_id (kvs.map (fun kv => Json.str kv.1)))
  | _ => liftE (.error (.pyError "TypeError: value is not iterable"))

/-- Modelled from the spec: the remote folder endpoint (an external
collaborator, not part of this repository). The state of one folder:
identifier, title, revision stamp and the ordered list membership. -/
structure FolderSt where
  fid : Int
  ftitle : String
  frev : Int
  lists : List Json
  deriving DecidableEq

def folderUrl (fid : Int) : String :=
  "http://a.wunderlist.com/api/v1/folders/" ++ toString fid

def folderBody (st : FolderSt) : Json :=
  .obj [("id", .num st.fid), ("title", .str st.ftitle), ("revision", .num st.frev),
        ("list_ids", .arr st.lists), ("type", .str "folder")]

/-- Modelled from the spec: the folder endpoint's transition function.
GET returns the current folder record; PATCH carrying the current
revision replaces the membership (replace semantics) and bumps the
revision, while a stale revision is answered with the service's
revision-conflict error body; any other request gets an empty list body. -/
def folderStep (st : FolderSt) (req : Request) : Response × FolderSt :=
  if req.verb = .get ∧ req.url = folderUrl st.fid then
    (⟨200, folderBody st⟩, st)
  else if req.verb = .patch ∧ req.url = folderUrl st.fid then
    match req.payload with
    | some p =>
        if pySubscr p "revision" = .ok (.num st.frev) then
          let newLists :=
            match pySubscr p "list_ids" with
            | .ok (.arr xs) => xs
            | _ => st.lists
          let st1 : FolderSt := ⟨st.fid, st.ftitle, st.frev + 1, newLists⟩
          (⟨200, folderBody st1⟩, st1)
        else
          (⟨409, .obj [("error", .obj [("revision_conflict", .bool true),
                          ("message", .str "conflict")])]⟩, st)
    | none => (⟨400, .obj []⟩, st)
  else (⟨200, .arr []⟩, st)

/-- A stateless fixture server that answers every request with a record
carrying revision 7. -/
def srvRev : Request → Response := fun _ => ⟨200, .obj [("revision", .num 7)]⟩

/-- A 256-character title. -/
def longT : String := String.mk (List.replicate 256 'a')

/-- A stateless fixture server that answers with status 204 but a body
carrying a revision-conflict error indicator. -/
def srvC2 : Request → Response :=
  fun _ => ⟨204, .obj [("error", .obj [("revision_conflict", .null)])]⟩

/-- A fixture server answering with a body whose `public` entry is the
JSON boolean `true`. -/
def srvPub : Request → Response := fun _ => ⟨200, .obj [("public", .bool true)]⟩

/-- A fixture server answering with a body whose `public` entry is the
string "true". -/
def srvPubS : Request → Response := fun _ => ⟨200, .obj [("public", .str "true")]⟩

/-- A fixture server whose lists response carries a duplicated title. -/
def srvLists : Request → Response := fun _ =>
  ⟨200, .arr [.obj [("title", .str "A"), ("id", .num 1)],
              .obj [("title", .str "B"), ("id", .num 2)],
              .obj [("title", .str "A"), ("id", .num 3)]]⟩

/-- A fixture server for `get_note_id`: task 5 lives in list 9, whose
notes include one attached to task 5. -/
def srvNotes : Request → Response := fun req =>
  if req.verb = .get ∧ req.url = "http://a.wunderlist.com/api/v1/tasks/5" then
    ⟨200, .obj [("list_id", .num 9)]⟩
  else
    ⟨200, .arr [.obj [("task_id", .num 4), ("id", .num 100)],
                .obj [("task_id", .num 5), ("id", .num 101)]]⟩

/-- A fixture server for `get_note_id`: task 5 lives in list 9, which has
no notes. -/
def srvNoNote : Request → Response := fun req =>
  if req.verb = .get ∧ req.url = "http://a.wunderlist.com/api/v1/tasks/5" then
    ⟨200, .obj [("list_id", .num 9)]⟩
  else ⟨200, .arr []⟩

/-- The verbs of the requests an operation issued, in order. -/
def verbs {σ α : Type} (out : Except WError α × List Request × σ) : List Verb :=
  out.2.1.map (fun r => r.verb)

/-- Spec-side description of the `list_ids` mapping: the id of the last
record in order whose `title` entry equals the key — "last one wins". -/
def lastTitleId (records : List Json) (k : Json) : Option Json :=
  match records.reverse.find? (fun r => decide (pySubscr r "title" = .ok k)) with
  | some r =>
      match pySubscr r "id" with
      | .ok i => some i
      | .error _ => none
  | none => none

/-- Unfolding of `bind` for the effect context. -/
theorem M_bind_def {σ α β : Type} (m : M σ α) (f : α → M σ β)
    (step : σ → Request → Response × σ) (st : σ) :
    (m >>= f) step st =
      match m step st with
      | (.ok a, l1, s1) =>
          match f a step s1 with
          | (r, l2, s2) => (r, l1 ++ l2, s2)
      | (.error e, l1, s1) => (.error e, l1, s1) := rfl

/-- Unfolding of `pure` for the effect context. -/
theorem M_pure_def {σ α : Type} (a : α) (step : σ → Request → Response × σ) (st : σ) :
    (pure a : M σ α) step st = (.ok a, [], st) := rfl

theorem jDictLookup_assign_self (d : List (Json × Json)) (k v : Json) :
    jDictLookup (jDictAssign d k v) k = some v := by
  induction d with
  | nil => simp [jDictAssign, jDictLookup]
  | cons hd tl ih =>
      by_cases h : hd.1 == k
      · simp [jDictAssign, h, jDictLookup]
      · simp only [jDictAssign, h, Bool.false_eq_true, if_false]
        simpa [jDictLookup, h] using ih

theorem jDictLookup_assign_ne (d : List (Json × Json)) (k v k' : Json) (h : ¬ k' = k) :
    jDictLookup (jDictAssign d k v) k' = jDictLookup d k' := by
  have hbk : (k == k') = false := by
    rw [beq_eq_false_iff_ne]
    exact fun hkk => h hkk.symm
  induction d with
  | nil => simp [jDictAssign, jDictLookup, hbk]
  | cons hd tl ih =>
      by_cases hh : hd.1 == k
      · have hdk : hd.1 = k := Json.eq_of_beq hh
        simp [jDictAssign, hh, jDictLookup, hbk, hdk]
      · by_cases hh' : hd.1 == k'
        · simp [jDictAssign, hh, jDictLookup, hh']
        · simp only [jDictAssign, hh, Bool.false_eq_true, if_false]
          simpa [jDictLookup, hh'] using ih

theorem buildListIds_lookup (records : List Json) (k : Json) :
    ∀ acc : List (Json × Json),
    (∀ r ∈ records, (∃ t, pySubscr r "title" = .ok t) ∧ ∃ i, pySubscr r "id" = .ok i) →
    ∃ d, buildListIds records acc = .ok d ∧
      jDictLookup d k =
        (match lastTitleId records k with
         | some i => some i
         | none => jDictLookup acc k) := by
  induction records with
  | nil =>
      intro acc hwf
      exact ⟨acc, rfl, by simp [lastTitleId]⟩
  | cons r rs ih =>
      intro acc hwf
      obtain ⟨⟨t, ht⟩, ⟨i, hi⟩⟩ := hwf r (by simp)
      obtain ⟨d, hd, hlook⟩ := ih (jDictAssign acc t i)
        (fun x hx => hwf x (by simp [hx]))
      refine ⟨d, by simp [buildListIds, hi, ht, hd, bind, Except.bind], ?_⟩
      rw [hlook]
      rcases hfind : rs.reverse.find? (fun r => decide (pySubscr r "title" = .ok k))
        with _ | r'
      · -- no later record matches: the head decides
        by_cases hk : k = t
        · subst hk
          rw [jDictLookup_assign_self]
          simp [lastTitleId, hfind, List.find?_append, ht, hi]
        · rw [jDictLookup_assign_ne _ _ _ _ hk]
          have hne : ¬ pySubscr r "title" = .ok k := by
            rw [ht]
            intro hcon
            simp only [Except.ok.injEq] at hcon
            exact hk hcon.symm
          simp [lastTitleId, hfind, List.find?_append, hne]
      · -- a later record matches and wins
        have hmem : r' ∈ rs := List.mem_reverse.mp (List.mem_of_find?_eq_some hfind)
        obtain ⟨⟨t', ht'⟩, ⟨i', hi'⟩⟩ := hwf r' (by simp [hmem])
        simp [lastTitleId, hfind, List.find?_append, hi']

theorem scanNotes_spec (tid : Int) (ns : List Json)
    (hwf : ∀ n ∈ ns, ∃ t, pySubscr n "task_id" = .ok t) :
    (∀ n, ns.find? (fun n => decide (pySubscr n "task_id" = .ok (.num tid))) = some n →
        scanNotes tid ns = pySubscr n "id") ∧
    (ns.find? (fun n => decide (pySubscr n "task_id" = .ok (.num tid))) = none →
        scanNotes tid ns = .error (.keyError "No note_id found for the given task_id.")) := by
  induction ns with
  | nil => exact ⟨fun n h => by simp at h, fun _ => rfl⟩
  | cons n0 rest ih =>
      obtain ⟨t0, ht0⟩ := hwf n0 (by simp)
      obtain ⟨ih1, ih2⟩ := ih (fun x hx => hwf x (by simp [hx]))
      by_cases hmatch : (t0 == Json.num tid) = true
      · have hEq : pySubscr n0 "task_id" = .ok (.num tid) := by
          rw [ht0]
          exact congrArg Except.ok (Json.eq_of_beq hmatch)
        constructor
        · intro n h
          rw [List.find?_cons_of_pos _ (by simp [hEq])] at h
          have hn : n0 = n := by simpa using h
          subst hn
          simp [scanNotes, ht0, hmatch, bind, Except.bind]
        · intro h
          rw [List.find?_cons_of_pos _ (by simp [hEq])] at h
          cases h
      · have hne : ¬ pySubscr n0 "task_id" = .ok (.num tid) := by
          rw [ht0]
          intro hcon
          simp only [Except.ok.injEq] at hcon
          exact hmatch (beq_iff_eq.mpr hcon)
        constructor
        · intro n h
          rw [List.find?_cons_of_neg _ (by simp [hne])] at h
          have := ih1 n h
          simpa [scanNotes, ht0, hmatch, bind, Except.bind] using this
        · intro h
          rw [List.find?_cons_of_neg _ (by simp [hne])] at h
          have := ih2 h
          simpa [scanNotes, ht0, hmatch, bind, Except.bind] using this

/-- C1: the response validator treats every list-shaped body as success;
a mapping body with an `error` entry fails with `staleRevision` when the
code's revision-conflict test on the error value holds, and otherwise
fails with `remoteError` carrying the error's `message` value unchanged. -/
theorem C1_response_validator (resp : Response) :
    (∀ xs, resp.body = .arr xs → checkResponse resp = .ok ()) ∧
    (∀ kvs err, resp.body = .obj kvs → objLookup kvs "error" = some err →
        pyIn (.str "revision_conflict") err = .ok true →
        checkResponse resp = .error .staleRevision) ∧
    (∀ kvs err m, resp.body = .obj kvs → objLookup kvs "error" = some err →
        pyIn (.str "revision_conflict") err = .ok false →
        pySubscr err "message" = .ok m →
        checkResponse resp = .error (.remoteError m)) := by
  refine ⟨fun xs h => ?_, fun kvs err h1 h2 h3 => ?_, fun kvs err m h1 h2 h3 h4 => ?_⟩
  · simp [checkResponse, h]
  · simp [checkResponse, h1, h2, h3]
  · simp [checkResponse, h1, h2, h3, h4]

/-- C1 witness: the three branches at concrete responses. -/
theorem C1_response_validator_witness :
    checkResponse ⟨200, .arr [.num 1]⟩ = .ok () ∧
    checkResponse ⟨200, .obj [("error", .obj [("revision_conflict", .null)])]⟩ =
      .error .staleRevision ∧
    checkResponse ⟨200, .obj [("error", .obj [("type", .str "x"), ("message", .str "boom")])]⟩ =
      .error (.remoteError (.str "boom")) :=
  ⟨(C1_response_validator ⟨200, .arr [.num 1]⟩).1 [.num 1] rfl,
   (C1_response_validator _).2.1 [("error", .obj [("revision_conflict", .null)])]
     (.obj [("revision_conflict", .null)]) rfl (by decide) (by decide),
   (C1_response_validator _).2.2 [("error", .obj [("type", .str "x"), ("message", .str "boom")])]
     (.obj [("type", .str "x"), ("message", .str "boom")]) (.str "boom")
     rfl (by decide) (by decide) (by decide)⟩

/-- C2 counterexample: at a delete response with status 204 whose body
carries a revision-conflict error indicator, `delete_list` raises instead
of signalling success, so success is not equivalent to the status code
being 204 — the body is parsed for error indicators on the delete path. -/
theorem C2_counterexample :
    ¬ (((delete_list 1 (some (.num 5)) (pureStep srvC2) ()).1 = .ok true) ↔
        (srvC2 ⟨.delete, "http://a.wunderlist.com/api/v1/lists/1", none,
          some (.obj [("revision", .num 5)])⟩).status = 204) := by
  decide

/-- C2 (amended): on the shared delete path, the response body is first
parsed and validated for error indicators exactly as for other verbs (a
body error is raised and no boolean is returned); only when validation
passes is success reported, and then it holds if and only if the
transport status code equals 204. -/
theorem C2_delete_status (srv : Request → Response) (url : String) (params : Option Json) :
    (checkResponse (srv ⟨.delete, url, none, params⟩) = .ok () →
      wdelete url params (pureStep srv) () =
        (.ok ((srv ⟨.delete, url, none, params⟩).status == 204),
         [⟨.delete, url, none, params⟩], ())) ∧
    (∀ e, checkResponse (srv ⟨.delete, url, none, params⟩) = .error e →
      wdelete url params (pureStep srv) () =
        (.error e, [⟨.delete, url, none, params⟩], ())) := by
  constructor
  · intro hok
    simp [wdelete, issue, liftE, pureStep, M_bind_def, M_pure_def, hok]
  · intro e herr
    simp [wdelete, issue, liftE, pureStep, M_bind_def, M_pure_def, herr]

/-- C2 witness: the amended theorem applied to a concrete validating
server. -/
theorem C2_delete_status_witness :
    wdelete "u" none (pureStep srvRev) () =
      (.ok false, [⟨.delete, "u", none, none⟩], ()) :=
  (C2_delete_status srvRev "u" none).1 (by decide)

/-- C3: every title-accepting create or update operation applied to a
title longer than 255 characters fails with the invalid-argument raise of
`_check_title` and issues no network request. -/
theorem C3_long_title {σ : Type} (step : σ → Request → Response × σ) (st : σ)
    (t : String) (ht : t.length > 255) :
    make_list t step st = (.error (.invalidArgument "Title is too long (255 char max)."), [], st) ∧
    (∀ lids : Json, make_folder t lids step st = (.error (.invalidArgument "Title is too long (255 char max)."), [], st)) ∧
    (∀ (i : Int) (kwargs : Kwargs), make_task i t kwargs step st = (.error (.invalidArgument "Title is too long (255 char max)."), [], st)) ∧
    (∀ (i : Int) (c : Bool), make_subtask i t c step st = (.error (.invalidArgument "Title is too long (255 char max)."), [], st)) ∧
    (∀ (i : Int) (kwargs : Kwargs), objLookup kwargs "title" = some (.str t) →
        update_list i kwargs step st = (.error (.invalidArgument "Title is too long (255 char max)."), [], st)) ∧
    (∀ (i : Int) (kwargs : Kwargs), objLookup kwargs "title" = some (.str t) →
        update_folder i kwargs step st = (.error (.invalidArgument "Title is too long (255 char max)."), [], st)) ∧
    (∀ (i : Int) (kwargs : Kwargs), objLookup kwargs "title" = some (.str t) →
        update_task i kwargs step st = (.error (.invalidArgument "Title is too long (255 char max)."), [], st)) ∧
    (∀ (i : Int) (kwargs : Kwargs), objLookup kwargs "title" = some (.str t) →
        update_subtask i kwargs step st = (.error (.invalidArgument "Title is too long (255 char max)."), [], st)) := by
  refine ⟨?_, ?_, ?_, ?_, ?_, ?_, ?_, ?_⟩
  · simp [make_list, check_title, pyLen, liftE, M_bind_def, ht]
  · intro lids
    simp [make_folder, check_title, pyLen, liftE, M_bind_def, ht]
  · intro i kwargs
    simp [make_task, check_title, pyLen, liftE, M_bind_def, ht]
  · intro i c
    simp [make_subtask, check_title, pyLen, liftE, M_bind_def, ht]
  · intro i kwargs hko
    simp [update_list, hko, check_title, pyLen, liftE, M_bind_def, ht]
  · intro i kwargs hko
    simp [update_folder, hko, check_title, pyLen, liftE, M_bind_def, ht]
  · intro i kwargs hko
    simp [update_task, hko, check_title, pyLen, liftE, M_bind_def, ht]
  · intro i kwargs hko
    simp [update_subtask, hko, check_title, pyLen, liftE, M_bind_def, ht]

set_option maxRecDepth 8000 in
/-- C3 witness: a 256-character title is rejected with no request by all
eight operations. -/
theorem C3_long_title_witness :
    make_list longT (pureStep srvRev) () = (.error (.invalidArgument "Title is too long (255 char max)."), [], ()) ∧
    make_folder longT (.arr []) (pureStep srvRev) () = (.error (.invalidArgument "Title is too long (255 char max)."), [], ()) ∧
    make_task 1 longT [] (pureStep srvRev) () = (.error (.invalidArgument "Title is too long (255 char max)."), [], ()) ∧
    make_subtask 1 longT false (pureStep srvRev) () = (.error (.invalidArgument "Title is too long (255 char max)."), [], ()) ∧
    update_list 1 [("title", .str longT)] (pureStep srvRev) () = (.error (.invalidArgument "Title is too long (255 char max)."), [], ()) ∧
    update_folder 1 [("title", .str longT)] (pureStep srvRev) () = (.error (.invalidArgument "Title is too long (255 char max)."), [], ()) ∧
    update_task 1 [("title", .str longT)] (pureStep srvRev) () = (.error (.invalidArgument "Title is too long (255 char max)."), [], ()) ∧
    update_subtask 1 [("title", .str longT)] (pureStep srvRev) () = (.error (.invalidArgument "Title is too long (255 char max)."), [], ()) := by
  have h := C3_long_title (pureStep srvRev) () longT (by decide)
  exact ⟨h.1, h.2.1 (.arr []), h.2.2.1 1 [], h.2.2.2.1 1 false,
    h.2.2.2.2.1 1 _ (by decide), h.2.2.2.2.2.1 1 _ (by decide),
    h.2.2.2.2.2.2.1 1 _ (by decide), h.2.2.2.2.2.2.2 1 _ (by decide)⟩

/-- C4: every update_* and delete_* operation issues exactly one network
request (the write) when the caller supplies an explicit revision, and
exactly two — the revision-fetching read followed by the write, in that
order — when the revision is omitted and the read succeeds. -/
theorem C4_revision_roundtrips (srv : Request → Response) :
    (∀ (i : Int) (kwargs : Kwargs) (r : Json),
      (objLookup kwargs "title" = none ∨
        ∃ t, objLookup kwargs "title" = some t ∧ check_title t = .ok ()) →
      objLookup kwargs "revision" = some r →
      verbs (update_list i kwargs (pureStep srv) ()) = [.patch]) ∧
    (∀ (i : Int) (kwargs : Kwargs),
      (objLookup kwargs "title" = none ∨
        ∃ t, objLookup kwargs "title" = some t ∧ check_title t = .ok ()) →
      objLookup kwargs "revision" = none →
      checkResponse (srv ⟨.get, "https://a.wunderlist.com/api/v1/lists/" ++ toString i, none, none⟩) = .ok () →
      ∀ rv : Json, pySubscr (srv ⟨.get, "https://a.wunderlist.com/api/v1/lists/" ++ toString i, none, none⟩).body "revision" = .ok rv →
      verbs (update_list i kwargs (pureStep srv) ()) = [.get, .patch]) ∧
    (∀ (i : Int) (r : Json), verbs (delete_task i (some r) (pureStep srv) ()) = [.delete]) ∧
    (∀ i : Int, checkResponse (srv ⟨.get, "http://a.wunderlist.com/api/v1/tasks/" ++ toString i, none, none⟩) = .ok () →
      ∀ rv : Json, pySubscr (srv ⟨.get, "http://a.wunderlist.com/api/v1/tasks/" ++ toString i, none, none⟩).body "revision" = .ok rv →
      verbs (delete_task i none (pureStep srv) ()) = [.get, .delete]) ∧
    (∀ (i : Int) (kwargs : Kwargs) (r : Json),
      (objLookup kwargs "title" = none ∨
        ∃ t, objLookup kwargs "title" = some t ∧ check_title t = .ok ()) →
      objLookup kwargs "revision" = some r →
      verbs (update_folder i kwargs (pureStep srv) ()) = [.patch]) ∧
    (∀ (i : Int) (kwargs : Kwargs),
      (objLookup kwargs "title" = none ∨
        ∃ t, objLookup kwargs "title" = some t ∧ check_title t = .ok ()) →
      objLookup kwargs "revision" = none →
      checkResponse (srv ⟨.get, "http://a.wunderlist.com/api/v1/folders/" ++ toString i, none, none⟩) = .ok () →
      ∀ rv : Json, pySubscr (srv ⟨.get, "http://a.wunderlist.com/api/v1/folders/" ++ toString i, none, none⟩).body "revision" = .ok rv →
      verbs (update_folder i kwargs (pureStep srv) ()) = [.get, .patch]) ∧
    (∀ (i : Int) (kwargs : Kwargs) (r : Json),
      (objLookup kwargs "title" = none ∨
        ∃ t, objLookup kwargs "title" = some t ∧ check_title t = .ok ()) →
      objLookup kwargs "revision" = some r →
      verbs (update_task i kwargs (pureStep srv) ()) = [.patch]) ∧
    (∀ (i : Int) (kwargs : Kwargs),
      (objLookup kwargs "title" = none ∨
        ∃ t, objLookup kwargs "title" = some t ∧ check_title t = .ok ()) →
      objLookup kwargs "revision" = none →
      checkResponse (srv ⟨.get, "http://a.wunderlist.com/api/v1/tasks/" ++ toString i, none, none⟩) = .ok () →
      ∀ rv : Json, pySubscr (srv ⟨.get, "http://a.wunderlist.com/api/v1/tasks/" ++ toString i, none, none⟩).body "revision" = .ok rv →
      verbs (update_task i kwargs (pureStep srv) ()) = [.get, .patch]) ∧
    (∀ (i : Int) (kwargs : Kwargs) (r : Json),
      (objLookup kwargs "title" = none ∨
        ∃ t, objLookup kwargs "title" = some t ∧ check_title t = .ok ()) →
      objLookup kwargs "revision" = some r →
      verbs (update_subtask i kwargs (pureStep srv) ()) = [.patch]) ∧
    (∀ (i : Int) (kwargs : Kwargs),
      (objLookup kwargs "title" = none ∨
        ∃ t, objLookup kwargs "title" = some t ∧ check_title t = .ok ()) →
      objLookup kwargs "revision" = none →
      checkResponse (srv ⟨.get, "https://a.wunderlist.com/api/v1/subtasks/" ++ toString i, none, none⟩) = .ok () →
      ∀ rv : Json, pySubscr (srv ⟨.get, "https://a.wunderlist.com/api/v1/subtasks/" ++ toString i, none, none⟩).body "revision" = .ok rv →
      verbs (update_subtask i kwargs (pureStep srv) ()) = [.get, .patch]) ∧
    (∀ (i : Int) (content : String) (r : Json),
      verbs (update_note i content (some r) (pureStep srv) ()) = [.patch]) ∧
    (∀ (i : Int) (content : String), checkResponse (srv ⟨.get, "https://a.wunderlist.com/api/v1/notes/" ++ toString i, none, none⟩) = .ok () →
      ∀ rv : Json, pySubscr (srv ⟨.get, "https://a.wunderlist.com/api/v1/notes/" ++ toString i, none, none⟩).body "revision" = .ok rv →
      verbs (update_note i content none (pureStep srv) ()) = [.get, .patch]) ∧
    (∀ (i : Int) (r : Json), verbs (delete_list i (some r) (pureStep srv) ()) = [.delete]) ∧
    (∀ i : Int, checkResponse (srv ⟨.get, "https://a.wunderlist.com/api/v1/lists/" ++ toString i, none, none⟩) = .ok () →
      ∀ rv : Json, pySubscr (srv ⟨.get, "https://a.wunderlist.com/api/v1/lists/" ++ toString i, none, none⟩).body "revision" = .ok rv →
      verbs (delete_list i none (pureStep srv) ()) = [.get, .delete]) ∧
    (∀ (i : Int) (r : Json), verbs (delete_folder i (some r) (pureStep srv) ()) = [.delete]) ∧
    (∀ i : Int, checkResponse (srv ⟨.get, "http://a.wunderlist.com/api/v1/folders/" ++ toString i, none, none⟩) = .ok () →
      ∀ rv : Json, pySubscr (srv ⟨.get, "http://a.wunderlist.com/api/v1/folders/" ++ toString i, none, none⟩).body "revision" = .ok rv →
      verbs (delete_folder i none (pureStep srv) ()) = [.get, .delete]) ∧
    (∀ (i : Int) (r : Json), verbs (delete_subtask i (some r) (pureStep srv) ()) = [.delete]) ∧
    (∀ i : Int, checkResponse (srv ⟨.get, "https://a.wunderlist.com/api/v1/subtasks/" ++ toString i, none, none⟩) = .ok () →
      ∀ rv : Json, pySubscr (srv ⟨.get, "https://a.wunderlist.com/api/v1/subtasks/" ++ toString i, none, none⟩).body "revision" = .ok rv →
      verbs (delete_subtask i none (pureStep srv) ()) = [.get, .delete]) ∧
    (∀ (i : Int) (r : Json), verbs (delete_note i (some r) (pureStep srv) ()) = [.delete]) ∧
    (∀ i : Int, checkResponse (srv ⟨.get, "https://a.wunderlist.com/api/v1/notes/" ++ toString i, none, none⟩) = .ok () →
      ∀ rv : Json, pySubscr (srv ⟨.get, "https://a.wunderlist.com/api/v1/notes/" ++ toString i, none, none⟩).body "revision" = .ok rv →
      verbs (delete_note i none (pureStep srv) ()) = [.get, .delete]) := by
  refine ⟨?_, ?_, ?_, ?_, ?_, ?_, ?_, ?_, ?_, ?_, ?_, ?_, ?_, ?_, ?_, ?_, ?_, ?_, ?_, ?_⟩
  · intro i kwargs r hti hrev
    rcases hti with hov | ⟨t, hov, hc⟩
    · simp [update_list, list_revision, get_list, wget, wpatch, verbs, issue, liftE, pureStep, M_bind_def, M_pure_def, hov, hrev]
      all_goals split <;> simp_all
    · simp [update_list, list_revision, get_list, wget, wpatch, verbs, issue, liftE, pureStep, M_bind_def, M_pure_def, hov, hrev, hc]
      all_goals split <;> simp_all
  · intro i kwargs hti hrev hok rv hrv
    rcases hti with hov | ⟨t, hov, hc⟩
    · simp [update_list, list_revision, get_list, wget, wpatch, verbs, issue, liftE, pureStep, M_bind_def, M_pure_def, hov, hrev, hok, hrv]
      all_goals split <;> simp_all
    · simp [update_list, list_revision, get_list, wget, wpatch, verbs, issue, liftE, pureStep, M_bind_def, M_pure_def, hov, hrev, hok, hrv, hc]
      all_goals split <;> simp_all
  · intro i r
    simp [delete_task, get_task, wget, wdelete, verbs, issue, liftE, pureStep, M_bind_def, M_pure_def]
    all_goals split <;> simp_all
  · intro i hok rv hrv
    simp [delete_task, get_task, wget, wdelete, verbs, issue, liftE, pureStep, M_bind_def, M_pure_def, hok, hrv]
    all_goals split <;> simp_all
  · intro i kwargs r hti hrev
    rcases hti with hov | ⟨t, hov, hc⟩
    · simp [update_folder, folder_revision, get_folder, wget, wpatch, verbs, issue, liftE, pureStep, M_bind_def, M_pure_def, hov, hrev]
      all_goals split <;> simp_all
    · simp [update_folder, folder_revision, get_folder, wget, wpatch, verbs, issue, liftE, pureStep, M_bind_def, M_pure_def, hov, hrev, hc]
      all_goals split <;> simp_all
  · intro i kwargs hti hrev hok rv hrv
    rcases hti with hov | ⟨t, hov, hc⟩
    · simp [update_folder, folder_revision, get_folder, wget, wpatch, verbs, issue, liftE, pureStep, M_bind_def, M_pure_def, hov, hrev, hok, hrv]
      all_goals split <;> simp_all
    · simp [update_folder, folder_revision, get_folder, wget, wpatch, verbs, issue, liftE, pureStep, M_bind_def, M_pure_def, hov, hrev, hok, hrv, hc]
      all_goals split <;> simp_all
  · intro i kwargs r hti hrev
    rcases hti with hov | ⟨t, hov, hc⟩
    · simp [update_task, get_task, wget, wpatch, verbs, issue, liftE, pureStep, M_bind_def, M_pure_def, hov, hrev]
      all_goals split <;> simp_all
    · simp [update_task, get_task, wget, wpatch, verbs, issue, liftE, pureStep, M_bind_def, M_pure_def, hov, hrev, hc]
      all_goals split <;> simp_all
  · intro i kwargs hti hrev hok rv hrv
    rcases hti with hov | ⟨t, hov, hc⟩
    · simp [update_task, get_task, wget, wpatch, verbs, issue, liftE, pureStep, M_bind_def, M_pure_def, hov, hrev, hok, hrv]
      all_goals split <;> simp_all
    · simp [update_task, get_task, wget, wpatch, verbs, issue, liftE, pureStep, M_bind_def, M_pure_def, hov, hrev, hok, hrv, hc]
      all_goals split <;> simp_all
  · intro i kwargs r hti hrev
    rcases hti with hov | ⟨t, hov, hc⟩
    · simp [update_subtask, get_subtask, wget, wpatch, verbs, issue, liftE, pureStep, M_bind_def, M_pure_def, hov, hrev]
      all_goals split <;> simp_all
    · simp [update_subtask, get_subtask, wget, wpatch, verbs, issue, liftE, pureStep, M_bind_def, M_pure_def, hov, hrev, hc]
      all_goals split <;> simp_all
  · intro i kwargs hti hrev hok rv hrv
    rcases hti with hov | ⟨t, hov, hc⟩
    · simp [update_subtask, get_subtask, wget, wpatch, verbs, issue, liftE, pureStep, M_bind_def, M_pure_def, hov, hrev, hok, hrv]
      all_goals split <;> simp_all
    · simp [update_subtask, get_subtask, wget, wpatch, verbs, issue, liftE, pureStep, M_bind_def, M_pure_def, hov, hrev, hok, hrv, hc]
      all_goals split <;> simp_all
  · intro i content r
    simp [update_note, get_note, wget, wpatch, verbs, issue, liftE, pureStep, M_bind_def, M_pure_def]
    all_goals split <;> simp_all
  · intro i content hok rv hrv
    simp [update_note, get_note, wget, wpatch, verbs, issue, liftE, pureStep, M_bind_def, M_pure_def, hok, hrv]
    all_goals split <;> simp_all
  · intro i r
    simp [delete_list, list_revision, get_list, wget, wdelete, verbs, issue, liftE, pureStep, M_bind_def, M_pure_def]
    all_goals split <;> simp_all
  · intro i hok rv hrv
    simp [delete_list, list_revision, get_list, wget, wdelete, verbs, issue, liftE, pureStep, M_bind_def, M_pure_def, hok, hrv]
    all_goals split <;> simp_all
  · intro i r
    simp [delete_folder, folder_revision, get_folder, wget, wdelete, verbs, issue, liftE, pureStep, M_bind_def, M_pure_def]
    all_goals split <;> simp_all
  · intro i hok rv hrv
    simp [delete_folder, folder_revision, get_folder, wget, wdelete, verbs, issue, liftE, pureStep, M_bind_def, M_pure_def, hok, hrv]
    all_goals split <;> simp_all
  · intro i r
    simp [delete_subtask, get_subtask, wget, wdelete, verbs, issue, liftE, pureStep, M_bind_def, M_pure_def]
    all_goals split <;> simp_all
  · intro i hok rv hrv
    simp [delete_subtask, get_subtask, wget, wdelete, verbs, issue, liftE, pureStep, M_bind_def, M_pure_def, hok, hrv]
    all_goals split <;> simp_all
  · intro i r
    simp [delete_note, get_note, wget, wdelete, verbs, issue, liftE, pureStep, M_bind_def, M_pure_def]
    all_goals split <;> simp_all
  · intro i hok rv hrv
    simp [delete_note, get_note, wget, wdelete, verbs, issue, liftE, pureStep, M_bind_def, M_pure_def, hok, hrv]
    all_goals split <;> simp_all

/-- C4 witness: the four leading conjuncts at a concrete server. -/
theorem C4_revision_roundtrips_witness :
    verbs (update_list 1 [("revision", .num 5)] (pureStep srvRev) ()) = [.patch] ∧
    verbs (update_list 1 [] (pureStep srvRev) ()) = [.get, .patch] ∧
    verbs (delete_task 2 (some (.num 5)) (pureStep srvRev) ()) = [.delete] ∧
    verbs (delete_task 2 none (pureStep srvRev) ()) = [.get, .delete] :=
  ⟨(C4_revision_roundtrips srvRev).1 1 [("revision", .num 5)] (.num 5)
     (Or.inl (by decide)) (by decide),
   (C4_revision_roundtrips srvRev).2.1 1 [] (Or.inl (by decide)) (by decide)
     (by decide) (.num 7) (by decide),
   (C4_revision_roundtrips srvRev).2.2.1 2 (.num 5),
   (C4_revision_roundtrips srvRev).2.2.2.1 2 (by decide) (.num 7) (by decide)⟩

/-- C5: `get_subtasks` and `get_notes` with both scope arguments, or with
neither, fail with the invalid-argument raise before any network request;
with exactly one scope argument they issue a single read carrying that
argument as the query parameter. -/
theorem C5_scope_arguments {σ : Type} (step : σ → Request → Response × σ) (st : σ) :
    (∀ c : Bool, get_subtasks none none c step st = (.error (.invalidArgument "get_subtasks requires exactly one of list_id or task_id."), [], st)) ∧
    (∀ (l tk : Json) (c : Bool), get_subtasks (some l) (some tk) c step st = (.error (.invalidArgument "get_subtasks requires exactly one of list_id or task_id."), [], st)) ∧
    (∀ (l : Json) (c : Bool), (get_subtasks (some l) none c step st).2.1 =
        [⟨.get, "http://a.wunderlist.com/api/v1/subtasks", none,
          some (.obj (if c then [("list_id", l), ("completed", .bool true)]
                      else [("list_id", l)]))⟩]) ∧
    (∀ (tk : Json) (c : Bool), (get_subtasks none (some tk) c step st).2.1 =
        [⟨.get, "http://a.wunderlist.com/api/v1/subtasks", none,
          some (.obj (if c then [("task_id", tk), ("completed", .bool true)]
                      else [("task_id", tk)]))⟩]) ∧
    (get_notes none none step st = (.error (.invalidArgument "get_notes requires exactly one of list_id or task_id."), [], st)) ∧
    (∀ l tk : Json, get_notes (some l) (some tk) step st = (.error (.invalidArgument "get_notes requires exactly one of list_id or task_id."), [], st)) ∧
    (∀ l : Json, (get_notes (some l) none step st).2.1 =
        [⟨.get, "http://a.wunderlist.com/api/v1/notes", none,
          some (.obj [("list_id", l)])⟩]) ∧
    (∀ tk : Json, (get_notes none (some tk) step st).2.1 =
        [⟨.get, "http://a.wunderlist.com/api/v1/notes", none,
          some (.obj [("task_id", tk)])⟩]) := by
  refine ⟨?_, ?_, ?_, ?_, ?_, ?_, ?_, ?_⟩
  · intro c
    simp [get_subtasks, liftE, M_bind_def]
  · intro l tk c
    simp [get_subtasks, liftE, M_bind_def]
  · intro l c
    cases c <;> simp [get_subtasks, wget, issue, liftE, M_bind_def, M_pure_def, pyDictAssign]
    all_goals split <;> simp_all
  · intro tk c
    cases c <;> simp [get_subtasks, wget, issue, liftE, M_bind_def, M_pure_def, pyDictAssign]
    all_goals split <;> simp_all
  · simp [get_notes, liftE, M_bind_def]
  · intro l tk
    simp [get_notes, liftE, M_bind_def]
  · intro l
    simp [get_notes, wget, issue, liftE, M_bind_def, M_pure_def]
    all_goals split <;> simp_all
  · intro tk
    simp [get_notes, wget, issue, liftE, M_bind_def, M_pure_def]
    all_goals split <;> simp_all

/-- C6: `add_to_folder` is idempotent — running it twice from the same
folder state leaves the folder's list membership identical to running it
once. -/
theorem C6_add_to_folder_idempotent (st : FolderSt) (lid : Int) :
    ((do let _ ← add_to_folder lid st.fid; add_to_folder lid st.fid :
        M FolderSt Json) folderStep st).2.2.lists =
      (add_to_folder lid st.fid folderStep st).2.2.lists := by
  cases hpres : st.lists.any (fun x => x == Json.num lid) <;>
    simp [add_to_folder, update_folder, folder_revision, get_folder, wget, wpatch,
      issue, liftE, M_bind_def, M_pure_def, folderStep, folderBody, folderUrl,
      checkResponse, pySubscr, objLookup, pyIn, pyDictAssign, hpres]

/-- C10: `make_list_public` reports success exactly when the `public`
entry of the response body equals the string "true"; in particular a
JSON boolean `true` there makes it report failure. -/
theorem C10_make_list_public (srv : Request → Response) :
    (∀ (i : Int) (v : Json),
      checkResponse (srv ⟨.patch, "http://a.wunderlist.com/api/v1/lists/" ++ toString i,
        some (.obj [("public", .bool true)]), none⟩) = .ok () →
      pySubscr (srv ⟨.patch, "http://a.wunderlist.com/api/v1/lists/" ++ toString i,
        some (.obj [("public", .bool true)]), none⟩).body "public" = .ok v →
      make_list_public i none (pureStep srv) () =
        (.ok (v == Json.str "true"),
         [⟨.patch, "http://a.wunderlist.com/api/v1/lists/" ++ toString i,
           some (.obj [("public", .bool true)]), none⟩], ()) ∧
      (v = .bool true →
        make_list_public i none (pureStep srv) () =
          (.ok false,
           [⟨.patch, "http://a.wunderlist.com/api/v1/lists/" ++ toString i,
             some (.obj [("public", .bool true)]), none⟩], ()))) ∧
    (∀ (i : Int) (r v : Json),
      checkResponse (srv ⟨.patch, "http://a.wunderlist.com/api/v1/lists/" ++ toString i,
        some (.obj [("public", .bool true), ("revision", r)]), none⟩) = .ok () →
      pySubscr (srv ⟨.patch, "http://a.wunderlist.com/api/v1/lists/" ++ toString i,
        some (.obj [("public", .bool true), ("revision", r)]), none⟩).body "public" = .ok v →
      make_list_public i (some r) (pureStep srv) () =
        (.ok (v == Json.str "true"),
         [⟨.patch, "http://a.wunderlist.com/api/v1/lists/" ++ toString i,
           some (.obj [("public", .bool true), ("revision", r)]), none⟩], ()) ∧
      (v = .bool true →
        make_list_public i (some r) (pureStep srv) () =
          (.ok false,
           [⟨.patch, "http://a.wunderlist.com/api/v1/lists/" ++ toString i,
             some (.obj [("public", .bool true), ("revision", r)]), none⟩], ()))) := by
  constructor
  · intro i v hok hv
    have h1 : make_list_public i none (pureStep srv) () =
        (.ok (v == Json.str "true"),
         [⟨.patch, "http://a.wunderlist.com/api/v1/lists/" ++ toString i,
           some (.obj [("public", .bool true)]), none⟩], ()) := by
      simp [make_list_public, wpatch, issue, liftE, pureStep, M_bind_def, M_pure_def,
        pyDictAssign, hok, hv]
    exact ⟨h1, fun hveq => by subst hveq; exact h1⟩
  · intro i r v hok hv
    have h1 : make_list_public i (some r) (pureStep srv) () =
        (.ok (v == Json.str "true"),
         [⟨.patch, "http://a.wunderlist.com/api/v1/lists/" ++ toString i,
           some (.obj [("public", .bool true), ("revision", r)]), none⟩], ()) := by
      simp [make_list_public, wpatch, issue, liftE, pureStep, M_bind_def, M_pure_def,
        pyDictAssign, hok, hv]
    exact ⟨h1, fun hveq => by subst hveq; exact h1⟩

/-- C10 witness: a response whose `public` entry is the boolean `true`
yields `false`; one whose entry is the string "true" yields `true`. -/
theorem C10_make_list_public_witness :
    make_list_public 1 none (pureStep srvPub) () =
      (.ok false, [⟨.patch, "http://a.wunderlist.com/api/v1/lists/" ++ toString (1 : Int),
        some (.obj [("public", .bool true)]), none⟩], ()) ∧
    make_list_public 1 none (pureStep srvPubS) () =
      (.ok true, [⟨.patch, "http://a.wunderlist.com/api/v1/lists/" ++ toString (1 : Int),
        some (.obj [("public", .bool true)]), none⟩], ()) :=
  ⟨((C10_make_list_public srvPub).1 1 (.bool true) (by decide) (by decide)).2 rfl,
   ((C10_make_list_public srvPubS).1 1 (.str "true") (by decide) (by decide)).1⟩

/-- C7 counterexample: at a concrete folder state, `add_to_folder` issues
three requests, not two. -/
theorem C7_counterexample :
    ¬ ((add_to_folder 2 1 folderStep ⟨1, "f", 0, []⟩).2.1.length = 2) := by decide

/-- C7 (amended): against the spec-modelled folder endpoint,
`add_to_folder` completes in exactly three round trips — the membership
read, the revision-fetching read issued by `update_folder`, and the
membership write — after which the folder's list set is the union of its
prior set and the added list id. -/
theorem C7_add_to_folder_effect (st : FolderSt) (lid : Int) :
    verbs (add_to_folder lid st.fid folderStep st) = [.get, .get, .patch] ∧
    (∀ x : Json, x ∈ (add_to_folder lid st.fid folderStep st).2.2.lists ↔
      (x ∈ st.lists ∨ x = .num lid)) := by
  cases hpres : st.lists.any (fun x => x == Json.num lid) with
  | false =>
      constructor
      · simp [add_to_folder, update_folder, folder_revision, get_folder, wget, wpatch,
          issue, liftE, M_bind_def, M_pure_def, folderStep, folderBody, folderUrl,
          checkResponse, pySubscr, objLookup, pyIn, pyDictAssign, verbs, hpres]
      · intro x
        simp [add_to_folder, update_folder, folder_revision, get_folder, wget, wpatch,
          issue, liftE, M_bind_def, M_pure_def, folderStep, folderBody, folderUrl,
          checkResponse, pySubscr, objLookup, pyIn, pyDictAssign, hpres]
  | true =>
      have hmem : Json.num lid ∈ st.lists := by
        rcases List.any_eq_true.mp hpres with ⟨x, hx, hbe⟩
        exact (Json.eq_of_beq hbe) ▸ hx
      constructor
      · simp [add_to_folder, update_folder, folder_revision, get_folder, wget, wpatch,
          issue, liftE, M_bind_def, M_pure_def, folderStep, folderBody, folderUrl,
          checkResponse, pySubscr, objLookup, pyIn, pyDictAssign, verbs, hpres]
      · intro x
        simp [add_to_folder, update_folder, folder_revision, get_folder, wget, wpatch,
          issue, liftE, M_bind_def, M_pure_def, folderStep, folderBody, folderUrl,
          checkResponse, pySubscr, objLookup, pyIn, pyDictAssign, hpres]
        exact fun hx => hx ▸ hmem

/-- C8: `list_ids` reads all lists once and builds a title-to-id dict in
which the last record with a given title wins; requesting a present title
returns that id, requesting an absent one raises `KeyError` (NotFound). -/
theorem C8_list_ids (srv : Request → Response) (records : List Json)
    (hbody : (srv ⟨.get, "https://a.wunderlist.com/api/v1/lists", none, none⟩).body = .arr records)
    (hwf : ∀ r ∈ records, (∃ t, pySubscr r "title" = .ok t) ∧ ∃ i, pySubscr r "id" = .ok i) :
    (∃ d, list_ids none (pureStep srv) () =
        (.ok (.inl d), [⟨.get, "https://a.wunderlist.com/api/v1/lists", none, none⟩], ()) ∧
        ∀ k, jDictLookup d k = lastTitleId records k) ∧
    (∀ (t : String) (i : Json), lastTitleId records (.str t) = some i →
        list_ids (some t) (pureStep srv) () =
          (.ok (.inr i), [⟨.get, "https://a.wunderlist.com/api/v1/lists", none, none⟩], ())) ∧
    (∀ t : String, lastTitleId records (.str t) = none →
        list_ids (some t) (pureStep srv) () =
          (.error (.keyError t), [⟨.get, "https://a.wunderlist.com/api/v1/lists", none, none⟩], ())) := by
  have hrun : ∀ k, ∃ d, buildListIds records [] = .ok d ∧
      jDictLookup d k = lastTitleId records k := by
    intro k
    obtain ⟨d, hd, hl⟩ := buildListIds_lookup records k [] hwf
    refine ⟨d, hd, ?_⟩
    rw [hl]
    cases lastTitleId records k <;> rfl
  obtain ⟨d0, hd0, _⟩ := hrun .null
  have hall : ∀ k, jDictLookup d0 k = lastTitleId records k := by
    intro k
    obtain ⟨d, hd, hl⟩ := hrun k
    have hdd : d0 = d := by
      have hoo := hd0.symm.trans hd
      exact (Except.ok.injEq _ _).mp hoo
    rw [hdd]
    exact hl
  refine ⟨⟨d0, ?_, hall⟩, fun t i hti => ?_, fun t hti => ?_⟩
  · simp [list_ids, get_lists, wget, issue, liftE, pureStep, M_bind_def, M_pure_def,
      checkResponse, hbody, hd0]
  · have hlk : jDictLookup d0 (.str t) = some i := (hall _).trans hti
    simp [list_ids, get_lists, wget, issue, liftE, pureStep, M_bind_def, M_pure_def,
      checkResponse, hbody, hd0, hlk]
  · have hlk : jDictLookup d0 (.str t) = none := (hall _).trans hti
    simp [list_ids, get_lists, wget, issue, liftE, pureStep, M_bind_def, M_pure_def,
      checkResponse, hbody, hd0, hlk]

/-- C9: `get_note_id` reads the task, then the owning list's notes, and
returns the id of the first note whose `task_id` equals the requested
task; with no match it raises the deliberate `KeyError` (NotFound), not a
transport error. -/
theorem C9_get_note_id (srv : Request → Response) (tid : Int) (lid : Json) (notes : List Json)
    (htask : checkResponse (srv ⟨.get, "http://a.wunderlist.com/api/v1/tasks/" ++ toString tid,
      none, none⟩) = .ok ())
    (hlid : pySubscr (srv ⟨.get, "http://a.wunderlist.com/api/v1/tasks/" ++ toString tid,
      none, none⟩).body "list_id" = .ok lid)
    (hnotes : (srv ⟨.get, "http://a.wunderlist.com/api/v1/notes", none,
      some (.obj [("list_id", lid)])⟩).body = .arr notes)
    (hwf : ∀ n ∈ notes, ∃ t, pySubscr n "task_id" = .ok t) :
    (∀ n, notes.find? (fun n => decide (pySubscr n "task_id" = .ok (.num tid))) = some n →
        get_note_id tid (pureStep srv) () =
          (pySubscr n "id",
           [⟨.get, "http://a.wunderlist.com/api/v1/tasks/" ++ toString tid, none, none⟩,
            ⟨.get, "http://a.wunderlist.com/api/v1/notes", none,
              some (.obj [("list_id", lid)])⟩], ())) ∧
    (notes.find? (fun n => decide (pySubscr n "task_id" = .ok (.num tid))) = none →
        get_note_id tid (pureStep srv) () =
          (.error (.keyError "No note_id found for the given task_id."),
           [⟨.get, "http://a.wunderlist.com/api/v1/tasks/" ++ toString tid, none, none⟩,
            ⟨.get, "http://a.wunderlist.com/api/v1/notes", none,
              some (.obj [("list_id", lid)])⟩], ())) := by
  obtain ⟨hs1, hs2⟩ := scanNotes_spec tid notes hwf
  have hnok : checkResponse (srv ⟨.get, "http://a.wunderlist.com/api/v1/notes", none,
      some (.obj [("list_id", lid)])⟩) = .ok () := by
    simp [checkResponse, hnotes]
  constructor
  · intro n h
    have hscan := hs1 n h
    simp [get_note_id, get_task, get_notes, wget, issue, liftE, pureStep, M_bind_def,
      M_pure_def, htask, hnok, hlid, hnotes, hscan]
  · intro h
    have hscan := hs2 h
    simp [get_note_id, get_task, get_notes, wget, issue, liftE, pureStep, M_bind_def,
      M_pure_def, htask, hnok, hlid, hnotes, hscan]

/-- C8 witness: with titles A, B, A carrying ids 1, 2, 3, requesting "A"
returns 3 (last wins) and requesting "C" raises `KeyError`. -/
theorem C8_list_ids_witness :
    list_ids (some "A") (pureStep srvLists) () =
      (.ok (.inr (.num 3)), [⟨.get, "https://a.wunderlist.com/api/v1/lists", none, none⟩], ()) ∧
    list_ids (some "C") (pureStep srvLists) () =
      (.error (.keyError "C"), [⟨.get, "https://a.wunderlist.com/api/v1/lists", none, none⟩], ()) := by
  have hwf : ∀ r ∈ [Json.obj [("title", .str "A"), ("id", .num 1)],
      Json.obj [("title", .str "B"), ("id", .num 2)],
      Json.obj [("title", .str "A"), ("id", .num 3)]],
      (∃ t, pySubscr r "title" = .ok t) ∧ ∃ i, pySubscr r "id" = .ok i := by
    intro r hr
    simp only [List.mem_cons, List.not_mem_nil, or_false] at hr
    rcases hr with h | h | h <;> subst h <;> exact ⟨⟨_, rfl⟩, ⟨_, rfl⟩⟩
  exact ⟨(C8_list_ids srvLists _ rfl hwf).2.1 "A" (.num 3) (by decide),
         (C8_list_ids srvLists _ rfl hwf).2.2 "C" (by decide)⟩

/-- C9 witness: with a matching note the id is returned; with no notes
the deliberate `KeyError` is raised. -/
theorem C9_get_note_id_witness :
    get_note_id 5 (pureStep srvNotes) () =
      (.ok (.num 101),
       [⟨.get, "http://a.wunderlist.com/api/v1/tasks/5", none, none⟩,
        ⟨.get, "http://a.wunderlist.com/api/v1/notes", none,
          some (.obj [("list_id", .num 9)])⟩], ()) ∧
    get_note_id 5 (pureStep srvNoNote) () =
      (.error (.keyError "No note_id found for the given task_id."),
       [⟨.get, "http://a.wunderlist.com/api/v1/tasks/5", none, none⟩,
        ⟨.get, "http://a.wunderlist.com/api/v1/notes", none,
          some (.obj [("list_id", .num 9)])⟩], ()) := by
  have hwf : ∀ n ∈ [Json.obj [("task_id", .num 4), ("id", .num 100)],
      Json.obj [("task_id", .num 5), ("id", .num 101)]],
      ∃ t, pySubscr n "task_id" = .ok t := by
    intro n hn
    simp only [List.mem_cons, List.not_mem_nil, or_false] at hn
    rcases hn with h | h <;> subst h <;> exact ⟨_, rfl⟩
  constructor
  · exact (C9_get_note_id srvNotes 5 (.num 9) _ (by decide) (by decide) (by decide) hwf).1
      (.obj [("task_id", .num 5), ("id", .num 101)]) (by decide)
  · exact (C9_get_note_id srvNoNote 5 (.num 9) [] (by decide) (by decide) (by decide)
      (by intro n hn; cases hn)).2 (by decide)

end Wunder
